import Mathlib

/-!
Shallow embedding of the redditrss core (src/reddit/client.rs, src/reddit/auth.rs,
src/rss/feed.rs).  Pure data flow is embedded as Lean functions; each network
attempt is an explicit input (token result, transport result, response), and the
retry loop of RedditClient::get_article_score consumes a sequence of such inputs.
Machine integers are modelled as Nat/Int with explicit bounds where serde imposes
them; header numbers (parsed as f64 in the source) are modelled as rationals.
-/

namespace RedditRss

/-- JSON values as inspected by the client via serde_json.  Numbers are
restricted to integers, which covers every numeric field the code reads
(scores, expires_in). -/
inductive Json where
  | null
  | bool (b : Bool)
  | num (n : Int)
  | str (s : String)
  | arr (items : List Json)
  | obj (fields : List (String × Json))
deriving Repr

/-- Field lookup in a JSON object; none when the value is not an object or the
field is missing (serde fails on both). -/
def Json.getField : Json → String → Option Json
  | .obj fields, k => fields.lookup k
  | _, _ => none

/-- A header slot as rate_limiting sees it: absent, present but not readable as
an f64 (HeaderValue::to_str or str::parse fails), or a numeric value. -/
inductive HeaderVal where
  | absent
  | unparsable
  | num (q : ℚ)
deriving Repr, DecidableEq

/-- An HTTP response as inspected by RedditClient: status code, the four
rate-limit headers, and the body. -/
structure Response where
  status : Nat
  retryAfter : HeaderVal
  xUsed : HeaderVal
  xRemaining : HeaderVal
  xReset : HeaderVal
  body : Json
deriving Repr

/-- parse_number_header (client.rs:140-151): absent header is Ok(None), a
present header that fails to read or parse is an error, otherwise the value. -/
def parse_number_header (h : HeaderVal) (name : String) : Except String (Option ℚ) :=
  match h with
  | .absent => .ok none
  | .unparsable => .error ("Cannot parse " ++ name ++ " header")
  | .num q => .ok (some q)

/-- rate_limiting (client.rs:103-127).  The result is Ok (some d) when the
client throttles for d seconds and retries (the function returned true after
calling throttle d), Ok none when the response is treated as normal, and an
error when header handling fails.
On status 429 the retry-after header is required and is the wait; otherwise
the three X-Ratelimit headers are parsed, and a remaining value of at most 1
throttles for the reset value, defaulting to 1 second. -/
def rate_limiting (r : Response) : Except String (Option ℚ) :=
  if r.status = 429 then
    match parse_number_header r.retryAfter "retry-after" with
    | .error e => .error e
    | .ok none => .error "Received 429, but retry-after header is absent"
    | .ok (some d) => .ok (some d)
  else
    match parse_number_header r.xUsed "X-Ratelimit-Used" with
    | .error e => .error e
    | .ok _used =>
      match parse_number_header r.xRemaining "X-Ratelimit-Remaining" with
      | .error e => .error e
      | .ok remaining =>
        match parse_number_header r.xReset "X-Ratelimit-Reset" with
        | .error e => .error e
        | .ok reset =>
          match remaining with
          | some f => if f ≤ 1 then .ok (some (reset.getD 1)) else .ok none
          | none => .ok none

/-- Response::error_for_status of reqwest: an error on a client-error (4xx)
or server-error (5xx) status, wrapped by the code with the context
"Received error status code" (client.rs:75-77). -/
def error_for_status (r : Response) : Except String Response :=
  if (400 ≤ r.status ∧ r.status ≤ 499) ∨ (500 ≤ r.status ∧ r.status ≤ 599) then
    .error "Received error status code"
  else .ok r

/-- RedditCommentItemInfo (client.rs:191-194): the score field, a u64. -/
structure RedditCommentItemInfo where
  score : Nat
deriving Repr, DecidableEq

/-- RedditCommentItem (client.rs:186-189). -/
structure RedditCommentItem where
  data : RedditCommentItemInfo
deriving Repr, DecidableEq

mutual
/-- RedditComment (client.rs:153-156). -/
inductive RedditComment where
  | mk (data : RedditCommentData)

/-- RedditCommentData (client.rs:157-160). -/
inductive RedditCommentData where
  | mk (children : List RedditCommentChild)

/-- RedditCommentChild (client.rs:162-170), an untagged serde enum: variants
are tried in declaration order and the Other variant accepts any JSON value. -/
inductive RedditCommentChild where
  | item (i : RedditCommentItem)
  | str (s : String)
  | comment (c : RedditComment)
  | other (v : Json)
end

def RedditComment.data : RedditComment → RedditCommentData
  | .mk d => d

def RedditCommentData.children : RedditCommentData → List RedditCommentChild
  | .mk cs => cs

/-- serde deserialization of RedditCommentItemInfo: requires a score field
holding an integer in u64 range (0 ≤ n < 2^64); extra fields are ignored. -/
def deserCommentItemInfo (j : Json) : Option RedditCommentItemInfo :=
  match j.getField "score" with
  | some (Json.num n) => if 0 ≤ n ∧ n < 2 ^ 64 then some ⟨n.toNat⟩ else none
  | _ => none

/-- serde deserialization of RedditCommentItem: requires a data field holding
a RedditCommentItemInfo. -/
def deserCommentItem (j : Json) : Option RedditCommentItem :=
  match j.getField "data" with
  | some d => (deserCommentItemInfo d).map RedditCommentItem.mk
  | none => none

mutual
/-- serde deserialization of RedditComment: requires a data field.  The fuel
argument bounds recursion depth (serde_json itself enforces a depth limit);
with fuel at least the nesting depth of the input the model is exact. -/
def deserComment (fuel : Nat) (j : Json) : Option RedditComment :=
  match fuel with
  | 0 => none
  | f + 1 =>
    match j.getField "data" with
    | some d => (deserCommentData f d).map RedditComment.mk
    | none => none

/-- serde deserialization of RedditCommentData: requires a children field
holding a JSON array. -/
def deserCommentData (fuel : Nat) (j : Json) : Option RedditCommentData :=
  match fuel with
  | 0 => none
  | f + 1 =>
    match j.getField "children" with
    | some (.arr items) => (deserChildren f items).map RedditCommentData.mk
    | _ => none

/-- serde deserialization of a vector of RedditCommentChild. -/
def deserChildren (fuel : Nat) (items : List Json) : Option (List RedditCommentChild) :=
  match fuel with
  | 0 => none
  | f + 1 =>
    match items with
    | [] => some []
    | j :: rest =>
      match deserChild f j with
      | none => none
      | some c =>
        match deserChildren f rest with
        | none => none
        | some cs => some (c :: cs)

/-- serde deserialization of the untagged RedditCommentChild: tries
RedditCommentItem, then String, then Comment, and falls back to Other, which
accepts any value.  Only fails on fuel exhaustion. -/
def deserChild (fuel : Nat) (j : Json) : Option RedditCommentChild :=
  match fuel with
  | 0 => none
  | f + 1 =>
    match deserCommentItem j with
    | some i => some (.item i)
    | none =>
      match j with
      | .str s => some (.str s)
      | _ =>
        match deserComment f j with
        | some c => some (.comment c)
        | none => some (.other j)
end

/-- json::<Vec<RedditComment>> (client.rs:78): the body must be a JSON array
of RedditComment values. -/
def deserComments (fuel : Nat) (j : Json) : Option (List RedditComment) :=
  match j with
  | .arr items => items.mapM (deserComment fuel)
  | _ => none

/-- RedditCommentChild::data (client.rs:172-184): only the typed item variant
yields a score record; every other variant is an error. -/
def RedditCommentChild.data : RedditCommentChild → Except String RedditCommentItemInfo
  | .item i => .ok i.data
  | .other _ => .error "Comment child is an unknown type"
  | _ => .error "Comment child is not a known type"

/-- The extraction chain of load_article_score (client.rs:81-91): first
element of the array, first child of its children, then the typed data. -/
def extract_score (res : List RedditComment) : Except String Nat :=
  match res.head? with
  | none => .error "Comments returned empty array"
  | some c =>
    match c.data.children.head? with
    | none => .error "First comment's children is empty"
    | some child =>
      match child.data with
      | .error e => .error e
      | .ok info => .ok info.score

/-- Body handling of load_article_score (client.rs:78-91): deserialize the
body as Vec of RedditComment, then run the extraction chain. -/
def parse_score (fuel : Nat) (body : Json) : Except String Nat :=
  match deserComments fuel body with
  | none => .error "Cannot deserialize article request"
  | some comments => extract_score comments

/-- The inputs of one attempt of load_article_score: the token lookup result
and the transport result of the GET request. -/
structure AttemptInput where
  token : Except String String
  send : Except String Response
deriving Repr

/-- load_article_score (client.rs:52-92): get a token, send the request,
run rate limiting (Ok none signals a retry), then require a non-error status
and parse the body.  Ok (some s) is a resolved score. -/
def load_article_score (fuel : Nat) (a : AttemptInput) : Except String (Option Nat) :=
  match a.token with
  | .error e => .error e
  | .ok _tok =>
    match a.send with
    | .error e => .error e
    | .ok res =>
      match rate_limiting res with
      | .error e => .error e
      | .ok (some _wait) => .ok none
      | .ok none =>
        match error_for_status res with
        | .error e => .error e
        | .ok res =>
          match parse_score fuel res.body with
          | .error e => .error e
          | .ok s => .ok (some s)

/-- The retry loop of get_article_score (client.rs:44-49), with the attempt
index and the remaining iteration count explicit. -/
def get_article_score_go (fuel : Nat) (attempts : Nat → AttemptInput) :
    Nat → Nat → Except String Nat
  | _, 0 => .error "Cannot get article score after 3 retries"
  | i, n + 1 =>
    match load_article_score fuel (attempts i) with
    | .error e => .error e
    | .ok (some s) => .ok s
    | .ok none => get_article_score_go fuel attempts (i + 1) n

/-- get_article_score (client.rs:43-50): up to 3 attempts; a rate-limited
attempt (Ok none) is retried, anything else ends the loop. -/
def get_article_score (fuel : Nat) (attempts : Nat → AttemptInput) : Except String Nat :=
  get_article_score_go fuel attempts 0 3

/-- Number of calls to load_article_score the loop performs. -/
def attempts_used_go (fuel : Nat) (attempts : Nat → AttemptInput) :
    Nat → Nat → Nat
  | _, 0 => 0
  | i, n + 1 =>
    match load_article_score fuel (attempts i) with
    | .ok none => 1 + attempts_used_go fuel attempts (i + 1) n
    | _ => 1

/-- Number of attempts consumed by get_article_score. -/
def attempts_used (fuel : Nat) (attempts : Nat → AttemptInput) : Nat :=
  attempts_used_go fuel attempts 0 3

/-- AuthResponse (auth.rs:9-16). -/
structure AuthResponse where
  access_token : String
  expires_in : Int
  scope : String
  token_type : String
deriving Repr, DecidableEq

/-- serde deserialization of AuthResponse; expires_in is an i64. -/
def deserAuthResponse (j : Json) : Option AuthResponse :=
  match j.getField "access_token", j.getField "expires_in",
        j.getField "scope", j.getField "token_type" with
  | some (.str a), some (.num n), some (.str s), some (.str t) =>
    if -2 ^ 63 ≤ n ∧ n < 2 ^ 63 then some ⟨a, n, s, t⟩ else none
  | _, _, _, _ => none

/-- get_token (auth.rs:42-73): look up the four secrets in order, failing
with a credential context message on the first missing one; then the
identity-endpoint exchange.  The exchange input is the transport result of
the POST: an error, or a status code together with the response body.  The
body is parsed as AuthResponse; the status code is never inspected. -/
def get_token (secrets : String → Option String)
    (resp : Except String (Nat × Json)) : Except String String :=
  match secrets "REDDIT_CLIENT_ID" with
  | none => .error "cannot get client id"
  | some _client_id =>
    match secrets "REDDIT_CLIENT_SECRET" with
    | none => .error "cannot get client secret"
    | some _client_secret =>
      match secrets "REDDIT_USERNAME" with
      | none => .error "cannot get username"
      | some _username =>
        match secrets "REDDIT_PASSWORD" with
        | none => .error "cannot get password"
        | some _password =>
          match resp with
          | .error e => .error e
          | .ok (_status, body) =>
            match deserAuthResponse body with
            | some a => .ok a.access_token
            | none => .error "cannot get token"

/-- A link of an atom entry (atom_syndication::Link); only href is read. -/
structure Link where
  href : String
deriving Repr, DecidableEq

/-- An atom feed entry (atom_syndication::Entry) as the pipeline reads it:
the entry is kept whole (modelled by an identifier) and only its links list
is inspected. -/
structure Entry where
  id : String
  links : List Link
deriving Repr, DecidableEq

/-- Whether the first list has the second as an initial segment. -/
def charsStartWith : List Char → List Char → Bool
  | _, [] => true
  | [], _ :: _ => false
  | c :: cs, p :: ps => c == p && charsStartWith cs ps

/-- Replacement loop of Rust str::replace over character lists: replace every
non-overlapping occurrence of the pattern, scanning left to right.  The fuel
argument (instantiated with the string length) makes the recursion
structural and the function executable. -/
def replaceChars (p r : List Char) : Nat → List Char → List Char
  | _, [] => []
  | 0, s => s
  | f + 1, c :: cs =>
    if !p.isEmpty && charsStartWith (c :: cs) p then
      r ++ replaceChars p r f (List.drop (p.length - 1) cs)
    else
      c :: replaceChars p r f cs

/-- Rust str::replace (used at feed.rs:83 with the nonempty pattern
https://www.reddit.com/, for which this model is exact). -/
def rustReplace (s pat rep : String) : String :=
  ⟨replaceChars pat.data rep.data s.data.length s.data⟩

/-- load_score (feed.rs:82-88): remove every occurrence of the
https://www.reddit.com/ pattern from the url, then fetch the article score
at the rewritten path; fetch stands for RedditClient::get_article_score. -/
def load_score (fetch : String → Except String Nat) (url : String) :
    Except String Nat :=
  match fetch (rustReplace url "https://www.reddit.com/" "") with
  | .ok s => .ok s
  | .error e => .error ("Cannot load score from reddit: " ++ e)

/-- get_score (feed.rs:90-103) with the moka score cache made explicit as an
association list.  try_get_with(key, fut) returns the cached value under key
when present; otherwise it runs fut, caches a successful result under key,
and does not cache an error.  The cache key is the entry's first link href
as-is; only load_score rewrites the url.  Returns the optional score and the
cache after the call. -/
def get_score (fetch : String → Except String Nat)
    (cache : List (String × Nat)) (e : Entry) :
    Except String (Option Nat × List (String × Nat)) :=
  match e.links.head? with
  | none => .ok (none, cache)
  | some link =>
    match cache.lookup link.href with
    | some s => .ok (some s, cache)
    | none =>
      match load_score fetch link.href with
      | .ok s => .ok (some s, (link.href, s) :: cache)
      | .error err => .error ("cannot load score, " ++ err)

/-- One per-entry lookup of the fan-out, with the cache state abstracted
away: the Ok (some s) / Ok none / error shape of get_score for one entry,
parameterised by the per-url outcome of the cache+client composite. -/
def get_score_of (lookup : String → Except String Nat) (e : Entry) :
    Except String (Option Nat) :=
  match e.links.head? with
  | none => .ok none
  | some link =>
    match lookup link.href with
    | .ok s => .ok (some s)
    | .error err => .error ("cannot load score, " ++ err)

/-- The fan-out and filter steps of feed_filter (feed.rs:41-58): resolve a
score per entry (try_join_all fails if any lookup fails), zip entries with
scores, and keep the entries whose score is present and at least min_score,
in feed order. -/
def feed_filter_entries (lookup : String → Except String Nat)
    (entries : List Entry) (min_score : Nat) : Except String (List Entry) :=
  match entries.mapM (get_score_of lookup) with
  | .error e => .error e
  | .ok scores =>
    .ok ((entries.zip scores).filterMap fun es =>
      match es.2 with
      | some s => if min_score ≤ s then some es.1 else none
      | none => none)

/-- fetch_feed status handling (feed.rs:71-78): a client-error (4xx) or
server-error (5xx) status is a hard failure; any other status passes. -/
def fetch_feed_check (status : Nat) : Except String Unit :=
  if (400 ≤ status ∧ status ≤ 499) ∨ (500 ≤ status ∧ status ≤ 599) then
    .error "cannot load feed"
  else .ok ()

/-- The feed response as feed_filter consumes it: the HTTP status and the
parse result of the body (text decoding plus Feed::read_from combined;
none when either fails). -/
structure FeedResponse where
  status : Nat
  entries : Option (List Entry)
deriving Repr, DecidableEq

/-- feed_filter (feed.rs:35-61): fetch the feed (transport error or a 4xx/5xx
status aborts), parse it, then fan out score lookups and filter.  The score
lookups only run after the feed stage succeeded. -/
def feed_filter (feed_resp : Except String FeedResponse)
    (lookup : String → Except String Nat) (min_score : Nat) :
    Except String (List Entry) :=
  match feed_resp with
  | .error e => .error e
  | .ok r =>
    match fetch_feed_check r.status with
    | .error e => .error e
    | .ok _ =>
      match r.entries with
      | none => .error "Cannot parse feed"
      | some entries => feed_filter_entries lookup entries min_score

/-- The score a per-entry lookup resolves to: some s on success, none when
the entry has no link; meaningless when the lookup fails. -/
def resolved_score (lookup : String → Except String Nat) (e : Entry) :
    Option Nat :=
  ((get_score_of lookup e).toOption).join

/-- Whether feed filtering keeps an entry: its resolved score is present and
at least min_score. -/
def keeps (lookup : String → Except String Nat) (min_score : Nat)
    (e : Entry) : Bool :=
  match resolved_score lookup e with
  | some s => decide (min_score ≤ s)
  | none => false

/-- The body of the spec's score-parsing example,
[{"data":{"children":[{"data":{"score":42}}]}}]. -/
def json42 : Json :=
  .arr [.obj [("data",
    .obj [("children", .arr [.obj [("data", .obj [("score", .num 42)])]])])]]

/-- The body [{"data":{"children":[]}}] of the spec's failing example. -/
def jsonEmptyChildren : Json :=
  .arr [.obj [("data", .obj [("children", .arr [])])]]

/-- A well-shaped body whose first child's score field is the integer n. -/
def negScoreBody (n : Int) : Json :=
  .arr [.obj [("data",
    .obj [("children", .arr [.obj [("data", .obj [("score", .num n)])]])])]]

/-- A concrete rate-limited attempt: token acquired, response 429 with
retry-after 1. -/
def rlAttempt : AttemptInput :=
  ⟨.ok "tok", .ok ⟨429, .num 1, .absent, .absent, .absent, .null⟩⟩

/-- A concrete entry whose link is a full reddit url. -/
def entry6 : Entry :=
  ⟨"e1", [⟨"https://www.reddit.com/r/rust/comments/1234/post/"⟩]⟩

/-- A fetch that succeeds only at the rewritten path of entry6's link. -/
def fetch6 : String → Except String Nat :=
  fun p => if p = "r/rust/comments/1234/post/" then .ok 7 else .error "wrong path"

/-- A secret store holding every secret. -/
def secretsAll : String → Option String := fun _ => some "s"

/-- A body that parses as an AuthResponse with access_token tok. -/
def goodAuthBody : Json :=
  .obj [("access_token", .str "tok"), ("expires_in", .num 3600),
        ("scope", .str "*"), ("token_type", .str "bearer")]

/-- Concrete feed entries for the spec's filter example. -/
def entryA : Entry := ⟨"a", [⟨"ua"⟩]⟩

def entryB : Entry := ⟨"b", [⟨"ub"⟩]⟩

def entryC : Entry := ⟨"c", [⟨"uc"⟩]⟩

/-- A lookup scoring entryA, entryB, entryC as 10, 55, 3. -/
def lookupABC : String → Except String Nat :=
  fun u => if u = "ua" then .ok 10 else if u = "ub" then .ok 55 else .ok 3

/-- A lookup that fails on entryB's url. -/
def lookupFailB : String → Except String Nat :=
  fun u => if u = "ub" then .error "boom" else lookupABC u

/-! Helper lemmas shared by the claim theorems. -/

/-- Unfolding of the 3-iteration retry loop. -/
lemma get_article_score_unfold (fuel : Nat) (attempts : Nat → AttemptInput) :
    get_article_score fuel attempts =
      match load_article_score fuel (attempts 0) with
      | .error e => .error e
      | .ok (some s) => .ok s
      | .ok none =>
        match load_article_score fuel (attempts 1) with
        | .error e => .error e
        | .ok (some s) => .ok s
        | .ok none =>
          match load_article_score fuel (attempts 2) with
          | .error e => .error e
          | .ok (some s) => .ok s
          | .ok none => .error "Cannot get article score after 3 retries" := by
  show get_article_score_go fuel attempts 0 3 = _
  rw [show (3 : Nat) = 2 + 1 from rfl, get_article_score_go]
  rcases load_article_score fuel (attempts 0) with e | _ | s <;> simp only
  rw [show (2 : Nat) = 1 + 1 from rfl, get_article_score_go]
  rcases load_article_score fuel (attempts 1) with e | _ | s <;> simp only
  rw [show (1 : Nat) = 0 + 1 from rfl, get_article_score_go]
  rcases load_article_score fuel (attempts 2) with e | _ | s <;> simp only
  rw [get_article_score_go]

/-- Unfolding of the attempt counter. -/
lemma attempts_used_unfold (fuel : Nat) (attempts : Nat → AttemptInput) :
    attempts_used fuel attempts =
      match load_article_score fuel (attempts 0) with
      | .ok none =>
        1 + (match load_article_score fuel (attempts 1) with
        | .ok none =>
          1 + (match load_article_score fuel (attempts 2) with
          | .ok none => 1 + 0
          | _ => 1)
        | _ => 1)
      | _ => 1 := by
  show attempts_used_go fuel attempts 0 3 = _
  rw [show (3 : Nat) = 2 + 1 from rfl, attempts_used_go]
  rcases load_article_score fuel (attempts 0) with e | _ | s <;> simp only
  rw [show (2 : Nat) = 1 + 1 from rfl, attempts_used_go]
  rcases load_article_score fuel (attempts 1) with e | _ | s <;> simp only
  rw [show (1 : Nat) = 0 + 1 from rfl, attempts_used_go]
  rcases load_article_score fuel (attempts 2) with e | _ | s <;> simp only
  rw [attempts_used_go]

/-- An attempt whose rate-limit handling errors makes load_article_score
error. -/
lemma load_article_score_rl_error (fuel : Nat) (a : AttemptInput)
    (tok : String) (r : Response) (e : String)
    (ht : a.token = .ok tok) (hs : a.send = .ok r)
    (hrl : rate_limiting r = .error e) :
    load_article_score fuel a = .error e := by
  simp [load_article_score, ht, hs, hrl]

/-- A normal-response attempt whose body parsing errors makes
load_article_score error. -/
lemma load_article_score_parse_error (fuel : Nat) (a : AttemptInput)
    (tok : String) (r : Response) (e : String)
    (ht : a.token = .ok tok) (hs : a.send = .ok r)
    (hrl : rate_limiting r = .ok none)
    (hst : ¬ ((400 ≤ r.status ∧ r.status ≤ 499) ∨
              (500 ≤ r.status ∧ r.status ≤ 599)))
    (hp : parse_score fuel r.body = .error e) :
    load_article_score fuel a = .error e := by
  simp [load_article_score, ht, hs, hrl, error_for_status, hst, hp]

/-- An error on the first attempt ends the lookup at once. -/
lemma get_article_score_first_error (fuel : Nat)
    (attempts : Nat → AttemptInput) (e : String)
    (h : load_article_score fuel (attempts 0) = .error e) :
    get_article_score fuel attempts = .error e ∧
      attempts_used fuel attempts = 1 := by
  rw [get_article_score_unfold, attempts_used_unfold, h]
  exact ⟨rfl, rfl⟩

/-- C1: get_article_score makes at most 3 attempts; an attempt is repeated
only when it was rate-limited (load_article_score returned Ok none, which
happens exactly when the token and transport succeeded and rate_limiting
signalled a wait); a failing attempt (transport, status or parse error)
ends the lookup at once with that error; a resolved score ends it with the
score; and three rate-limited attempts end it with the retries-exhausted
error after exactly 3 attempts. -/
theorem get_article_score_retry_policy (fuel : Nat)
    (attempts : Nat → AttemptInput) :
    attempts_used fuel attempts ≤ 3 ∧
    (∀ a : AttemptInput, load_article_score fuel a = .ok none ↔
      ∃ tok r d, a.token = .ok tok ∧ a.send = .ok r ∧
        rate_limiting r = .ok (some d)) ∧
    (∀ i e, i < 3 →
      (∀ j, j < i → load_article_score fuel (attempts j) = .ok none) →
      load_article_score fuel (attempts i) = .error e →
      get_article_score fuel attempts = .error e ∧
        attempts_used fuel attempts = i + 1) ∧
    (∀ i s, i < 3 →
      (∀ j, j < i → load_article_score fuel (attempts j) = .ok none) →
      load_article_score fuel (attempts i) = .ok (some s) →
      get_article_score fuel attempts = .ok s ∧
        attempts_used fuel attempts = i + 1) ∧
    ((∀ j, j < 3 → load_article_score fuel (attempts j) = .ok none) →
      get_article_score fuel attempts =
        .error "Cannot get article score after 3 retries" ∧
        attempts_used fuel attempts = 3) := by
  refine ⟨?_, ?_, ?_, ?_, ?_⟩
  · rw [attempts_used_unfold]
    rcases load_article_score fuel (attempts 0) with e | _ | s <;>
      rcases load_article_score fuel (attempts 1) with e | _ | s <;>
        rcases load_article_score fuel (attempts 2) with e | _ | s <;>
          simp
  · intro a
    constructor
    · intro h
      rcases ht : a.token with e | tok
      · simp [load_article_score, ht] at h
      rcases hs : a.send with e | r
      · simp [load_article_score, ht, hs] at h
      rcases hrl : rate_limiting r with e | w
      · simp [load_article_score, ht, hs, hrl] at h
      rcases w with _ | d
      · rcases hes : error_for_status r with e | r2
        · simp [load_article_score, ht, hs, hrl, hes] at h
        rcases hp : parse_score fuel r2.body with e | s <;>
          simp [load_article_score, ht, hs, hrl, hes, hp] at h
      · exact ⟨tok, r, d, rfl, rfl, hrl⟩
    · rintro ⟨tok, r, d, ht, hs, hrl⟩
      simp [load_article_score, ht, hs, hrl]
  · intro i e hi hprev herr
    interval_cases i
    · rw [get_article_score_unfold, attempts_used_unfold, herr]
      exact ⟨rfl, rfl⟩
    · rw [get_article_score_unfold, attempts_used_unfold,
        hprev 0 (by omega), herr]
      exact ⟨rfl, rfl⟩
    · rw [get_article_score_unfold, attempts_used_unfold,
        hprev 0 (by omega), hprev 1 (by omega), herr]
      exact ⟨rfl, rfl⟩
  · intro i s hi hprev hok
    interval_cases i
    · rw [get_article_score_unfold, attempts_used_unfold, hok]
      exact ⟨rfl, rfl⟩
    · rw [get_article_score_unfold, attempts_used_unfold,
        hprev 0 (by omega), hok]
      exact ⟨rfl, rfl⟩
    · rw [get_article_score_unfold, attempts_used_unfold,
        hprev 0 (by omega), hprev 1 (by omega), hok]
      exact ⟨rfl, rfl⟩
  · intro hall
    rw [get_article_score_unfold, attempts_used_unfold,
      hall 0 (by omega), hall 1 (by omega), hall 2 (by omega)]
    exact ⟨rfl, rfl⟩

/-- Witness for C1: an endpoint that always answers 429 with retry-after 1
exhausts the budget after exactly 3 attempts. -/
theorem get_article_score_retry_policy_witness :
    get_article_score 10 (fun _ => rlAttempt) =
      .error "Cannot get article score after 3 retries" ∧
    attempts_used 10 (fun _ => rlAttempt) = 3 :=
  (get_article_score_retry_policy 10 (fun _ => rlAttempt)).2.2.2.2
    (fun _ _ => rfl)

/-- The item-info deserializer rejects any score outside u64 range. -/
lemma deserCommentItemInfo_out_of_range (n : Int)
    (hni : ¬ (0 ≤ n ∧ n < 2 ^ 64)) :
    deserCommentItemInfo (Json.obj [("score", Json.num n)]) = none := by
  show (if 0 ≤ n ∧ n < 2 ^ 64 then
    some (RedditCommentItemInfo.mk n.toNat) else none) = none
  exact if_neg hni

/-- The typed-item deserializer rejects a child whose score is outside u64
range. -/
lemma deserCommentItem_out_of_range (n : Int)
    (hni : ¬ (0 ≤ n ∧ n < 2 ^ 64)) :
    deserCommentItem
      (Json.obj [("data", Json.obj [("score", Json.num n)])]) = none := by
  show Option.map RedditCommentItem.mk
    (deserCommentItemInfo (Json.obj [("score", Json.num n)])) = none
  rw [deserCommentItemInfo_out_of_range n hni]
  rfl

/-- An object holding only a score field is not a RedditCommentData (no
children field). -/
lemma deserCommentData_score_obj (f : Nat) (n : Int) :
    deserCommentData f (Json.obj [("score", Json.num n)]) = none := by
  cases f with
  | zero => rfl
  | succ g => rfl

/-- A score child is not a nested RedditComment: its data field has no
children field. -/
lemma deserComment_score_child (f : Nat) (n : Int) :
    deserComment f
      (Json.obj [("data", Json.obj [("score", Json.num n)])]) = none := by
  cases f with
  | zero => rfl
  | succ g =>
    show Option.map RedditComment.mk
      (deserCommentData g (Json.obj [("score", Json.num n)])) = none
    rw [deserCommentData_score_obj g n]
    rfl

/-- A well-shaped child whose score is outside u64 range falls through
every typed variant to Other. -/
lemma deserChild_out_of_range (f : Nat) (n : Int)
    (hni : ¬ (0 ≤ n ∧ n < 2 ^ 64)) :
    deserChild (f + 1)
      (Json.obj [("data", Json.obj [("score", Json.num n)])]) =
      some (RedditCommentChild.other
        (Json.obj [("data", Json.obj [("score", Json.num n)])])) := by
  show (match deserCommentItem
      (Json.obj [("data", Json.obj [("score", Json.num n)])]) with
    | some i => some (RedditCommentChild.item i)
    | none =>
      match deserComment f
          (Json.obj [("data", Json.obj [("score", Json.num n)])]) with
      | some c => some (RedditCommentChild.comment c)
      | none => some (RedditCommentChild.other
          (Json.obj [("data", Json.obj [("score", Json.num n)])]))) = _
  rw [deserCommentItem_out_of_range n hni, deserComment_score_child f n]

/-- A well-shaped body whose first child's score is negative deserializes
with the first child falling through to the untagged Other variant. -/
lemma negScoreBody_deser (n : Int) (hn : n < 0) :
    deserComments 10 (negScoreBody n) =
      some [RedditComment.mk (RedditCommentData.mk
        [RedditCommentChild.other
          (Json.obj [("data", Json.obj [("score", Json.num n)])])])] := by
  have hni : ¬ (0 ≤ n ∧ n < 2 ^ 64) := by omega
  have houter : deserComment 10
      (Json.obj [("data", Json.obj [("children",
        Json.arr [Json.obj [("data", Json.obj [("score", Json.num n)])]])])]) =
      some (RedditComment.mk (RedditCommentData.mk
        [RedditCommentChild.other
          (Json.obj [("data", Json.obj [("score", Json.num n)])])])) := by
    show Option.map RedditComment.mk
      (Option.map RedditCommentData.mk
        (match deserChild 6
            (Json.obj [("data", Json.obj [("score", Json.num n)])]) with
        | none => none
        | some c =>
          match deserChildren 6 ([] : List Json) with
          | none => none
          | some cs => some (c :: cs))) = _
    rw [show (6 : Nat) = 5 + 1 from rfl, deserChild_out_of_range 5 n hni]
    rfl
  show (Json.arr [Json.obj [("data", Json.obj [("children",
    Json.arr [Json.obj [("data", Json.obj [("score", Json.num n)])]])])]]
    |> deserComments 10) = _
  rw [show deserComments 10 (Json.arr [Json.obj [("data",
      Json.obj [("children", Json.arr [Json.obj [("data",
        Json.obj [("score", Json.num n)])]])])]]) =
    [Json.obj [("data", Json.obj [("children", Json.arr [Json.obj [("data",
      Json.obj [("score", Json.num n)])]])])]].mapM (deserComment 10)
    from rfl]
  rw [List.mapM_cons, houter, List.mapM_nil]
  rfl

/-- A well-shaped body whose first child's score is negative fails score
parsing with the unknown-type shape error. -/
lemma negScoreBody_parse (n : Int) (hn : n < 0) :
    parse_score 10 (negScoreBody n) =
      .error "Comment child is an unknown type" := by
  rw [parse_score, negScoreBody_deser n hn]
  rfl

/-- An Ok result of the Except type is an Ok constructor. -/
lemma except_isOk_exists {α : Type} {x : Except String α} (h : x.isOk) :
    ∃ v, x = .ok v := by
  rcases x with e | v
  · exact absurd h (by simp [Except.isOk, Except.toBool])
  · exact ⟨v, rfl⟩

/-- When every per-entry lookup succeeds, the fan-out resolves to the list
of resolved scores in order. -/
lemma mapM_get_score_of_ok (lookup : String → Except String Nat) :
    ∀ entries : List Entry,
    (∀ e ∈ entries, (get_score_of lookup e).isOk) →
    entries.mapM (get_score_of lookup) =
      .ok (entries.map (resolved_score lookup)) := by
  intro entries h
  induction entries with
  | nil => rfl
  | cons e es ih =>
    obtain ⟨v, hv⟩ := except_isOk_exists (h e (by simp))
    rw [List.mapM_cons, hv, ih (fun x hx => h x (by simp [hx]))]
    show Except.ok (v :: es.map (resolved_score lookup)) = _
    rw [List.map_cons]
    show _ = Except.ok ((get_score_of lookup e).toOption.join ::
      es.map (resolved_score lookup))
    rw [hv]
    rfl

/-- A successful fan-out means every per-entry lookup succeeded. -/
lemma mapM_get_score_of_mem (lookup : String → Except String Nat) :
    ∀ (entries : List Entry) scores,
    entries.mapM (get_score_of lookup) = .ok scores →
    ∀ e ∈ entries, ∃ v, get_score_of lookup e = .ok v := by
  intro entries
  induction entries with
  | nil =>
    intro scores _ e he
    exact absurd he (by simp)
  | cons p ps ih =>
    intro scores hm e he
    rw [List.mapM_cons] at hm
    rcases hp : get_score_of lookup p with e2 | v
    · rw [hp] at hm
      exact absurd hm (by
        rw [show ((Except.error e2 : Except String (Option Nat)) >>=
          fun x => ps.mapM (get_score_of lookup) >>=
            fun xs => pure (x :: xs)) =
          (Except.error e2 : Except String (List (Option Nat))) from rfl]
        simp)
    · rw [hp] at hm
      rcases hm2 : ps.mapM (get_score_of lookup) with e2 | vs
      · rw [hm2] at hm
        exact absurd hm (by
          rw [show ((Except.ok v : Except String (Option Nat)) >>=
            fun x => (Except.error e2 : Except String (List (Option Nat))) >>=
              fun xs => pure (x :: xs)) =
            (Except.error e2 : Except String (List (Option Nat))) from rfl]
          simp)
      · rcases List.mem_cons.mp he with he | he
        · exact ⟨v, he ▸ hp⟩
        · exact ih vs hm2 e he

/-- A failing per-entry lookup after a prefix of successful ones fails the
whole fan-out with that error. -/
lemma mapM_get_score_of_error (lookup : String → Except String Nat)
    (err : String) :
    ∀ (pre : List Entry) (e : Entry) (post : List Entry),
    (∀ e2 ∈ pre, (get_score_of lookup e2).isOk) →
    get_score_of lookup e = .error err →
    (pre ++ e :: post).mapM (get_score_of lookup) = .error err := by
  intro pre
  induction pre with
  | nil =>
    intro e post _ he
    rw [List.nil_append, List.mapM_cons, he]
    rfl
  | cons p ps ih =>
    intro e post hpre he
    obtain ⟨v, hv⟩ := except_isOk_exists (hpre p (by simp))
    rw [List.cons_append, List.mapM_cons, hv,
      ih e post (fun x hx => hpre x (by simp [hx])) he]
    rfl

/-- The zip-and-threshold step equals an order-preserving filter by the
keeps predicate. -/
lemma zip_scores_filter (lookup : String → Except String Nat) (m : Nat) :
    ∀ entries : List Entry,
    ((entries.zip (entries.map (resolved_score lookup))).filterMap fun es =>
      match es.2 with
      | some s => if m ≤ s then some es.1 else none
      | none => none) = entries.filter (keeps lookup m) := by
  intro entries
  induction entries with
  | nil => rfl
  | cons e es ih =>
    rw [List.map_cons, List.zip_cons_cons, List.filterMap_cons,
      List.filter_cons]
    rcases hr : resolved_score lookup e with _ | s
    · simp only [hr, keeps, ih]
      simp
    · by_cases hm : m ≤ s
      · simp only [hr, keeps, ih, if_pos hm]
        simp [hm]
      · simp only [hr, keeps, ih, if_neg hm]
        simp [hm]

/-- C2: a 429 response with a numeric retry-after header throttles for that
duration and is retried; a non-429 response with parsable rate-limit
headers and a remaining quota of at most 1 throttles for the reset value
(1 second when the reset header is absent) and is retried; a non-429
response with parsable headers and remaining quota absent or above 1 is a
normal response with no throttling. -/
theorem rate_limiting_signal_policy (r : Response) :
    (∀ d, r.status = 429 → r.retryAfter = HeaderVal.num d →
      rate_limiting r = .ok (some d)) ∧
    (∀ f, r.status ≠ 429 → r.xUsed ≠ HeaderVal.unparsable →
      r.xRemaining = HeaderVal.num f → f ≤ 1 →
      (∀ t, r.xReset = HeaderVal.num t → rate_limiting r = .ok (some t)) ∧
      (r.xReset = HeaderVal.absent → rate_limiting r = .ok (some 1))) ∧
    (r.status ≠ 429 → r.xUsed ≠ HeaderVal.unparsable →
      r.xReset ≠ HeaderVal.unparsable →
      (r.xRemaining = HeaderVal.absent ∨
        ∃ f, r.xRemaining = HeaderVal.num f ∧ 1 < f) →
      rate_limiting r = .ok none) := by
  refine ⟨?_, ?_, ?_⟩
  · intro d h429 hra
    simp [rate_limiting, parse_number_header, h429, hra]
  · intro f hs hu hrem hf
    rcases hused : r.xUsed with _ | _ | q
    · constructor
      · intro t hrt
        simp [rate_limiting, parse_number_header, hs, hused, hrem, hrt, hf]
      · intro hrt
        simp [rate_limiting, parse_number_header, hs, hused, hrem, hrt, hf]
    · exact absurd hused hu
    · constructor
      · intro t hrt
        simp [rate_limiting, parse_number_header, hs, hused, hrem, hrt, hf]
      · intro hrt
        simp [rate_limiting, parse_number_header, hs, hused, hrem, hrt, hf]
  · intro hs hu hrt hrem
    have hu2 : ∃ ou, parse_number_header r.xUsed "X-Ratelimit-Used" = .ok ou := by
      rcases hused : r.xUsed with _ | _ | q
      · exact ⟨none, rfl⟩
      · exact absurd hused hu
      · exact ⟨some q, rfl⟩
    have hrt2 : ∃ ot, parse_number_header r.xReset "X-Ratelimit-Reset" = .ok ot := by
      rcases hreset : r.xReset with _ | _ | q
      · exact ⟨none, rfl⟩
      · exact absurd hreset hrt
      · exact ⟨some q, rfl⟩
    obtain ⟨ou, hu2⟩ := hu2
    obtain ⟨ot, hrt2⟩ := hrt2
    rcases hrem with hrem | ⟨f, hrem, hf⟩
    · have h3 : parse_number_header r.xRemaining "X-Ratelimit-Remaining" =
          .ok none := by rw [hrem]; rfl
      simp [rate_limiting, hs, hu2, hrt2, h3]
    · have h3 : parse_number_header r.xRemaining "X-Ratelimit-Remaining" =
          .ok (some f) := by rw [hrem]; rfl
      have hnle : ¬ f ≤ 1 := not_le.mpr hf
      simp [rate_limiting, hs, hu2, hrt2, h3, hnle]

/-- Witness for C2: a 429 response with retry-after 5 throttles for 5
seconds and is retried. -/
theorem rate_limiting_signal_policy_witness :
    rate_limiting ⟨429, HeaderVal.num 5, .absent, .absent, .absent, .null⟩ =
      .ok (some 5) :=
  (rate_limiting_signal_policy
    ⟨429, HeaderVal.num 5, .absent, .absent, .absent, .null⟩).1 5 rfl rfl

/-- C9 counterexample: a 200 response whose retry-after header is present
but unparsable is treated as a normal response (Ok, no retry), not as an
immediate error as the claim states. -/
theorem rate_limiting_ignores_retry_after_cex :
    rate_limiting
      ⟨200, HeaderVal.unparsable, .absent, .absent, .absent, .null⟩ =
      .ok none := rfl

/-- C9 amended: on a 429 response an absent or unparsable retry-after
header errors; on a non-429 response (any status, also successful ones) a
present-but-unparsable X-Ratelimit-Used, X-Ratelimit-Remaining or
X-Ratelimit-Reset header errors; retry-after is only examined when the
status is 429; and such an error on the first attempt propagates out of
get_article_score after exactly one attempt. -/
theorem rate_limiting_header_error_policy (r : Response) :
    (r.status = 429 → r.retryAfter = HeaderVal.absent →
      rate_limiting r = .error "Received 429, but retry-after header is absent") ∧
    (r.status = 429 → r.retryAfter = HeaderVal.unparsable →
      rate_limiting r = .error "Cannot parse retry-after header") ∧
    (r.status ≠ 429 → r.xUsed = HeaderVal.unparsable →
      rate_limiting r = .error "Cannot parse X-Ratelimit-Used header") ∧
    (r.status ≠ 429 → r.xUsed ≠ HeaderVal.unparsable →
      r.xRemaining = HeaderVal.unparsable →
      rate_limiting r = .error "Cannot parse X-Ratelimit-Remaining header") ∧
    (r.status ≠ 429 → r.xUsed ≠ HeaderVal.unparsable →
      r.xRemaining ≠ HeaderVal.unparsable →
      r.xReset = HeaderVal.unparsable →
      rate_limiting r = .error "Cannot parse X-Ratelimit-Reset header") ∧
    (∀ fuel (attempts : Nat → AttemptInput) e tok,
      (attempts 0).token = .ok tok → (attempts 0).send = .ok r →
      rate_limiting r = .error e →
      get_article_score fuel attempts = .error e ∧
        attempts_used fuel attempts = 1) := by
  refine ⟨?_, ?_, ?_, ?_, ?_, ?_⟩
  · intro h429 hra
    simp [rate_limiting, parse_number_header, h429, hra]
  · intro h429 hra
    simp [rate_limiting, parse_number_header, h429, hra]
  · intro hs hused
    simp [rate_limiting, parse_number_header, hs, hused]
  · intro hs hu hrem
    have hu2 : ∃ ou, parse_number_header r.xUsed "X-Ratelimit-Used" = .ok ou := by
      rcases hused : r.xUsed with _ | _ | q
      · exact ⟨none, rfl⟩
      · exact absurd hused hu
      · exact ⟨some q, rfl⟩
    obtain ⟨ou, hu2⟩ := hu2
    have h3 : parse_number_header r.xRemaining "X-Ratelimit-Remaining" =
        .error "Cannot parse X-Ratelimit-Remaining header" := by rw [hrem]; rfl
    simp [rate_limiting, hs, hu2, h3]
  · intro hs hu hrem hreset
    have hu2 : ∃ ou, parse_number_header r.xUsed "X-Ratelimit-Used" = .ok ou := by
      rcases hused : r.xUsed with _ | _ | q
      · exact ⟨none, rfl⟩
      · exact absurd hused hu
      · exact ⟨some q, rfl⟩
    have hr2 : ∃ orem, parse_number_header r.xRemaining "X-Ratelimit-Remaining" = .ok orem := by
      rcases hrem2 : r.xRemaining with _ | _ | q
      · exact ⟨none, rfl⟩
      · exact absurd hrem2 hrem
      · exact ⟨some q, rfl⟩
    obtain ⟨ou, hu2⟩ := hu2
    obtain ⟨orem, hr2⟩ := hr2
    have h4 : parse_number_header r.xReset "X-Ratelimit-Reset" =
        .error "Cannot parse X-Ratelimit-Reset header" := by rw [hreset]; rfl
    simp [rate_limiting, hs, hu2, hr2, h4]
  · intro fuel attempts e tok ht hsend hrl
    exact get_article_score_first_error fuel attempts e
      (load_article_score_rl_error fuel (attempts 0) tok r e ht hsend hrl)

/-- Witness for C9 amended: a 200 response with an unparsable
X-Ratelimit-Used header errors. -/
theorem rate_limiting_header_error_policy_witness :
    rate_limiting ⟨200, .absent, HeaderVal.unparsable, .absent, .absent, .null⟩ =
      .error "Cannot parse X-Ratelimit-Used header" :=
  (rate_limiting_header_error_policy
    ⟨200, .absent, HeaderVal.unparsable, .absent, .absent, .null⟩).2.2.1
    (by simp) rfl

/-- C3: the literal body of the spec's example parses to score 42; an empty
outer list, an empty children list of the first element, or a first child
that is not a typed comment item all fail with a shape error; and such a
parse failure on the first attempt propagates out of get_article_score
after exactly one attempt (not retried). -/
theorem parse_score_shape_policy :
    parse_score 10 json42 = .ok 42 ∧
    (∀ fuel, parse_score fuel (Json.arr []) =
      .error "Comments returned empty array") ∧
    parse_score 10 jsonEmptyChildren =
      .error "First comment's children is empty" ∧
    extract_score [] = .error "Comments returned empty array" ∧
    (∀ rest, extract_score
      (RedditComment.mk (RedditCommentData.mk []) :: rest) =
      .error "First comment's children is empty") ∧
    (∀ child children rest,
      (∀ i, child ≠ RedditCommentChild.item i) →
      ∃ e, extract_score
        (RedditComment.mk (RedditCommentData.mk (child :: children)) :: rest) =
        .error e) ∧
    (∀ fuel (attempts : Nat → AttemptInput) e tok r,
      (attempts 0).token = .ok tok → (attempts 0).send = .ok r →
      rate_limiting r = .ok none →
      ¬ ((400 ≤ r.status ∧ r.status ≤ 499) ∨
         (500 ≤ r.status ∧ r.status ≤ 599)) →
      parse_score fuel r.body = .error e →
      get_article_score fuel attempts = .error e ∧
        attempts_used fuel attempts = 1) := by
  refine ⟨rfl, ?_, rfl, rfl, ?_, ?_, ?_⟩
  · intro fuel
    rfl
  · intro rest
    rfl
  · intro child children rest hni
    rcases child with i | s | c | v
    · exact absurd rfl (hni i)
    · exact ⟨_, rfl⟩
    · exact ⟨_, rfl⟩
    · exact ⟨_, rfl⟩
  · intro fuel attempts e tok r ht hsend hrl hst hp
    exact get_article_score_first_error fuel attempts e
      (load_article_score_parse_error fuel (attempts 0) tok r e ht hsend hrl
        hst hp)

/-- Witness for C3: with all three attempts answering 200 with the empty
children body, the lookup fails with the shape error after one attempt. -/
theorem parse_score_shape_policy_witness :
    get_article_score 10
      (fun _ => ⟨.ok "tok",
        .ok ⟨200, .absent, .absent, .absent, .absent, jsonEmptyChildren⟩⟩) =
      .error "First comment's children is empty" ∧
    attempts_used 10
      (fun _ => ⟨.ok "tok",
        .ok ⟨200, .absent, .absent, .absent, .absent, jsonEmptyChildren⟩⟩) = 1 :=
  parse_score_shape_policy.2.2.2.2.2.2 10 _
    "First comment's children is empty" "tok"
    ⟨200, .absent, .absent, .absent, .absent, jsonEmptyChildren⟩
    rfl rfl rfl (by simp) rfl

/-- C10: scores are unsigned (a resolved score is never negative); the
typed comment item deserializes exactly the integers in u64 range; a
well-shaped child whose score field is a negative integer falls through to
the untagged Other variant, so the lookup fails at once with the
unknown-type shape error, not retried — a single negative-score response
fails the lookup after one attempt. -/
theorem negative_score_is_shape_error :
    (∀ fuel (attempts : Nat → AttemptInput) s,
      get_article_score fuel attempts = .ok s → 0 ≤ (s : Int)) ∧
    (∀ n : Int, ∀ i,
      deserCommentItemInfo (Json.obj [("score", Json.num n)]) = some i →
      0 ≤ n ∧ n < 2 ^ 64 ∧ i.score = n.toNat) ∧
    (∀ n : Int, n < 0 →
      deserChild 10 (Json.obj [("data", Json.obj [("score", Json.num n)])]) =
        some (RedditCommentChild.other
          (Json.obj [("data", Json.obj [("score", Json.num n)])]))) ∧
    (∀ n : Int, n < 0 →
      parse_score 10 (negScoreBody n) =
        .error "Comment child is an unknown type") ∧
    (∀ (n : Int) (attempts : Nat → AttemptInput) tok r, n < 0 →
      (attempts 0).token = .ok tok → (attempts 0).send = .ok r →
      rate_limiting r = .ok none →
      ¬ ((400 ≤ r.status ∧ r.status ≤ 499) ∨
         (500 ≤ r.status ∧ r.status ≤ 599)) →
      r.body = negScoreBody n →
      get_article_score 10 attempts =
        .error "Comment child is an unknown type" ∧
        attempts_used 10 attempts = 1) := by
  refine ⟨?_, ?_, ?_, ?_, ?_⟩
  · intro fuel attempts s _
    exact Int.natCast_nonneg s
  · intro n i h
    rw [show deserCommentItemInfo (Json.obj [("score", Json.num n)]) =
      (if 0 ≤ n ∧ n < 2 ^ 64 then
        some (RedditCommentItemInfo.mk n.toNat) else none) from rfl] at h
    by_cases hc : 0 ≤ n ∧ n < 2 ^ 64
    · rw [if_pos hc] at h
      injection h with h2
      exact ⟨hc.1, hc.2, by rw [← h2]⟩
    · rw [if_neg hc] at h
      exact absurd h (by simp)
  · intro n hn
    have hni : ¬ (0 ≤ n ∧ n < 2 ^ 64) := by omega
    rw [show (10 : Nat) = 9 + 1 from rfl]
    exact deserChild_out_of_range 9 n hni
  · exact negScoreBody_parse
  · intro n attempts tok r hn ht hsend hrl hst hbody
    refine get_article_score_first_error 10 attempts _
      (load_article_score_parse_error 10 (attempts 0) tok r _ ht hsend hrl
        hst ?_)
    rw [hbody]
    exact negScoreBody_parse n hn

/-- C4: when every per-entry lookup succeeds, feed filtering returns
exactly the entries whose resolved score is present and at least
min_score (the comparison is inclusive), in original feed order (an
order-preserving filter of the input list); an entry without a link
resolves to a score-absent lookup (Ok none) rather than an error, and
score-absent entries are excluded by the filter. -/
theorem feed_filter_entries_threshold (lookup : String → Except String Nat)
    (entries : List Entry) (m : Nat) :
    (∀ e : Entry, e.links = [] → get_score_of lookup e = .ok none) ∧
    (∀ e : Entry, resolved_score lookup e = none → keeps lookup m e = false) ∧
    (∀ (e : Entry) s, resolved_score lookup e = some s →
      (keeps lookup m e = true ↔ m ≤ s)) ∧
    ((∀ e ∈ entries, (get_score_of lookup e).isOk) →
      feed_filter_entries lookup entries m =
        .ok (entries.filter (keeps lookup m))) := by
  refine ⟨?_, ?_, ?_, ?_⟩
  · intro e he
    simp [get_score_of, he]
  · intro e he
    simp [keeps, he]
  · intro e s hs
    simp [keeps, hs]
  · intro h
    rw [show feed_filter_entries lookup entries m =
      (match entries.mapM (get_score_of lookup) with
       | .error e => .error e
       | .ok scores =>
         .ok ((entries.zip scores).filterMap fun es =>
           match es.2 with
           | some s => if m ≤ s then some es.1 else none
           | none => none)) from rfl]
    rw [mapM_get_score_of_ok lookup entries h]
    exact congrArg Except.ok (zip_scores_filter lookup m entries)

/-- Witness for C4: entries scored 10, 55, 3 with min_score 10 keep
exactly the first two, in order (10 is kept: the comparison is
inclusive). -/
theorem feed_filter_entries_threshold_witness :
    feed_filter_entries lookupABC [entryA, entryB, entryC] 10 =
      .ok [entryA, entryB] :=
  ((feed_filter_entries_threshold lookupABC [entryA, entryB, entryC] 10).2.2.2
    (by decide)).trans (by rfl)

/-- C5: if any single per-entry lookup fails, the whole fan-out fails:
there is no partial-result mode; in particular when the lookups before the
failing entry succeed, the operation fails with exactly that entry's
error. -/
theorem feed_filter_entries_all_or_nothing
    (lookup : String → Except String Nat) (entries : List Entry) (m : Nat) :
    (∀ e err, e ∈ entries → get_score_of lookup e = .error err →
      ∃ err2, feed_filter_entries lookup entries m = .error err2) ∧
    (∀ pre (e : Entry) post err, entries = pre ++ e :: post →
      (∀ e2 ∈ pre, (get_score_of lookup e2).isOk) →
      get_score_of lookup e = .error err →
      feed_filter_entries lookup entries m = .error err) := by
  constructor
  · intro e err he herr
    rcases hm : entries.mapM (get_score_of lookup) with e2 | scores
    · refine ⟨e2, ?_⟩
      rw [show feed_filter_entries lookup entries m =
        (match entries.mapM (get_score_of lookup) with
         | .error e => .error e
         | .ok scores =>
           .ok ((entries.zip scores).filterMap fun es =>
             match es.2 with
             | some s => if m ≤ s then some es.1 else none
             | none => none)) from rfl, hm]
    · obtain ⟨v, hv⟩ := mapM_get_score_of_mem lookup entries scores hm e he
      rw [herr] at hv
      exact absurd hv (by simp)
  · intro pre e post err hsplit hpre herr
    rw [show feed_filter_entries lookup entries m =
      (match entries.mapM (get_score_of lookup) with
       | .error e => .error e
       | .ok scores =>
         .ok ((entries.zip scores).filterMap fun es =>
           match es.2 with
           | some s => if m ≤ s then some es.1 else none
           | none => none)) from rfl, hsplit,
      mapM_get_score_of_error lookup err pre e post hpre herr]

/-- Witness for C5: a feed of two entries whose second lookup fails makes
the whole filtering fail with that error. -/
theorem feed_filter_entries_all_or_nothing_witness :
    feed_filter_entries lookupFailB [entryA, entryB] 0 =
      .error "cannot load score, boom" :=
  (feed_filter_entries_all_or_nothing lookupFailB [entryA, entryB] 0).2
    [entryA] entryB [] "cannot load score, boom" rfl (by decide) (by rfl)

/-- C6 counterexample: for the entry whose link is
https://www.reddit.com/r/rust/comments/1234/post/, the upstream fetch is
issued at the rewritten path r/rust/comments/1234/post/ (the fetch used
here succeeds only at that path), while the cache entry is stored under
the original unrewritten link, so the cache key and the request path are
different strings — refuting that the same rewritten string is used as
both. -/
theorem get_score_cache_key_cex :
    get_score fetch6 [] entry6 =
      .ok (some 7,
        [("https://www.reddit.com/r/rust/comments/1234/post/", 7)]) ∧
    fetch6 "https://www.reddit.com/r/rust/comments/1234/post/" =
      .error "wrong path" ∧
    rustReplace "https://www.reddit.com/r/rust/comments/1234/post/"
      "https://www.reddit.com/" "" = "r/rust/comments/1234/post/" ∧
    "https://www.reddit.com/r/rust/comments/1234/post/" ≠
      "r/rust/comments/1234/post/" :=
  ⟨rfl, rfl, by decide, by decide⟩

/-- C6 amended: for every feed entry with a link, the request path is the
link with every occurrence of the https://www.reddit.com/ pattern removed,
while the cache key is the original unrewritten link: on a cache miss, a
successful fetch at the rewritten path is stored under the original link,
and a failing fetch at the rewritten path fails the lookup. -/
theorem get_score_canonical_paths (fetch : String → Except String Nat)
    (cache : List (String × Nat)) (e : Entry) (link : Link)
    (hlink : e.links.head? = some link)
    (hmiss : cache.lookup link.href = none) :
    (∀ s, fetch (rustReplace link.href "https://www.reddit.com/" "") =
        .ok s →
      get_score fetch cache e = .ok (some s, (link.href, s) :: cache)) ∧
    (∀ err, fetch (rustReplace link.href "https://www.reddit.com/" "") =
        .error err →
      get_score fetch cache e =
        .error ("cannot load score, " ++
          ("Cannot load score from reddit: " ++ err))) := by
  constructor
  · intro s hs
    simp [get_score, hlink, hmiss, load_score, hs]
  · intro err herr
    simp [get_score, hlink, hmiss, load_score, herr]

/-- Witness for C6 amended: the concrete entry's fetch happens at the
rewritten path and is cached under the original link. -/
theorem get_score_canonical_paths_witness :
    get_score fetch6 [] entry6 =
      .ok (some 7,
        [("https://www.reddit.com/r/rust/comments/1234/post/", 7)]) :=
  (get_score_canonical_paths fetch6 [] entry6
    ⟨"https://www.reddit.com/r/rust/comments/1234/post/"⟩ rfl rfl).1 7
    (by rfl)

/-- C7 counterexample: with all secrets configured, a non-success (500)
identity response whose body parses as a token response yields a token —
the status is never inspected, so a token can be returned from a
non-success identity response. -/
theorem get_token_nonsuccess_status_cex :
    get_token secretsAll (.ok (500, goodAuthBody)) = .ok "tok" := rfl

/-- C7 amended: get_token fails with the matching credential error when
any of the four configured secrets is missing (checked in order); with all
secrets present it propagates a transport error and fails with the
token-parse error when the body does not parse as a token response; the
response status is never inspected: for every status, success or not, a
parsable body yields its token. -/
theorem get_token_error_policy (secrets : String → Option String)
    (resp : Except String (Nat × Json)) :
    (secrets "REDDIT_CLIENT_ID" = none →
      get_token secrets resp = .error "cannot get client id") ∧
    ((secrets "REDDIT_CLIENT_ID").isSome →
      secrets "REDDIT_CLIENT_SECRET" = none →
      get_token secrets resp = .error "cannot get client secret") ∧
    ((secrets "REDDIT_CLIENT_ID").isSome →
      (secrets "REDDIT_CLIENT_SECRET").isSome →
      secrets "REDDIT_USERNAME" = none →
      get_token secrets resp = .error "cannot get username") ∧
    ((secrets "REDDIT_CLIENT_ID").isSome →
      (secrets "REDDIT_CLIENT_SECRET").isSome →
      (secrets "REDDIT_USERNAME").isSome →
      secrets "REDDIT_PASSWORD" = none →
      get_token secrets resp = .error "cannot get password") ∧
    ((secrets "REDDIT_CLIENT_ID").isSome →
      (secrets "REDDIT_CLIENT_SECRET").isSome →
      (secrets "REDDIT_USERNAME").isSome →
      (secrets "REDDIT_PASSWORD").isSome →
      (∀ e, resp = .error e → get_token secrets resp = .error e) ∧
      (∀ status body, resp = .ok (status, body) →
        deserAuthResponse body = none →
        get_token secrets resp = .error "cannot get token") ∧
      (∀ status body a, resp = .ok (status, body) →
        deserAuthResponse body = some a →
        get_token secrets resp = .ok a.access_token)) := by
  refine ⟨?_, ?_, ?_, ?_, ?_⟩
  · intro h
    simp [get_token, h]
  · intro h1 h2
    obtain ⟨v1, hv1⟩ := Option.isSome_iff_exists.mp h1
    simp [get_token, hv1, h2]
  · intro h1 h2 h3
    obtain ⟨v1, hv1⟩ := Option.isSome_iff_exists.mp h1
    obtain ⟨v2, hv2⟩ := Option.isSome_iff_exists.mp h2
    simp [get_token, hv1, hv2, h3]
  · intro h1 h2 h3 h4
    obtain ⟨v1, hv1⟩ := Option.isSome_iff_exists.mp h1
    obtain ⟨v2, hv2⟩ := Option.isSome_iff_exists.mp h2
    obtain ⟨v3, hv3⟩ := Option.isSome_iff_exists.mp h3
    simp [get_token, hv1, hv2, hv3, h4]
  · intro h1 h2 h3 h4
    obtain ⟨v1, hv1⟩ := Option.isSome_iff_exists.mp h1
    obtain ⟨v2, hv2⟩ := Option.isSome_iff_exists.mp h2
    obtain ⟨v3, hv3⟩ := Option.isSome_iff_exists.mp h3
    obtain ⟨v4, hv4⟩ := Option.isSome_iff_exists.mp h4
    refine ⟨?_, ?_, ?_⟩
    · intro e he
      simp [get_token, hv1, hv2, hv3, hv4, he]
    · intro status body hr hb
      simp [get_token, hv1, hv2, hv3, hv4, hr, hb]
    · intro status body a hr hb
      simp [get_token, hv1, hv2, hv3, hv4, hr, hb]

/-- Witness for C7 amended: all secrets present and a body that is not a
token response fail with the token-parse error. -/
theorem get_token_error_policy_witness :
    get_token secretsAll (.ok (200, Json.null)) =
      .error "cannot get token" :=
  ((get_token_error_policy secretsAll (.ok (200, Json.null))).2.2.2.2
    rfl rfl rfl rfl).2.1 200 Json.null rfl rfl

/-- C8 counterexample: a 300 (non-2xx) feed response is not a hard
failure: with an empty parsed feed the filter proceeds and returns Ok,
refuting that any non-2xx status aborts. -/
theorem feed_filter_non2xx_cex :
    feed_filter (.ok ⟨300, some []⟩) (fun _ => .error "lookup") 0 =
      .ok [] := rfl

/-- C8 amended: a feed response with a client-error (4xx) or server-error
(5xx) status aborts feed_filter immediately with the feed-fetch error,
and no score lookup influences the result (it is identical for every
lookup function and threshold); statuses outside 400-599 (1xx, 2xx, 3xx)
pass the status check. -/
theorem feed_filter_status_abort (r : FeedResponse)
    (lookup lookup2 : String → Except String Nat) (m m2 : Nat) :
    ((400 ≤ r.status ∧ r.status ≤ 499) ∨ (500 ≤ r.status ∧ r.status ≤ 599) →
      feed_filter (.ok r) lookup m = .error "cannot load feed" ∧
      feed_filter (.ok r) lookup m = feed_filter (.ok r) lookup2 m2) ∧
    (¬ ((400 ≤ r.status ∧ r.status ≤ 499) ∨
        (500 ≤ r.status ∧ r.status ≤ 599)) →
      fetch_feed_check r.status = .ok ()) := by
  constructor
  · intro h
    constructor <;> simp [feed_filter, fetch_feed_check, h]
  · intro h
    simp [fetch_feed_check, h]

/-- Witness for C8 amended: a 404 feed response aborts with the feed-fetch
error. -/
theorem feed_filter_status_abort_witness :
    feed_filter (.ok ⟨404, some []⟩) (fun _ => .ok 0) 0 =
      .error "cannot load feed" :=
  ((feed_filter_status_abort ⟨404, some []⟩ (fun _ => .ok 0)
    (fun _ => .ok 1) 0 5).1 (by norm_num)).1

/-- Witness for C10: a single 200 response whose first child's score is -5
fails the lookup with the unknown-type shape error after one attempt. -/
theorem negative_score_is_shape_error_witness :
    get_article_score 10
      (fun _ => ⟨.ok "tok",
        .ok ⟨200, .absent, .absent, .absent, .absent, negScoreBody (-5)⟩⟩) =
      .error "Comment child is an unknown type" ∧
    attempts_used 10
      (fun _ => ⟨.ok "tok",
        .ok ⟨200, .absent, .absent, .absent, .absent, negScoreBody (-5)⟩⟩) = 1 :=
  negative_score_is_shape_error.2.2.2.2 (-5) _ "tok"
    ⟨200, .absent, .absent, .absent, .absent, negScoreBody (-5)⟩
    (by norm_num) rfl rfl rfl (by simp) rfl

end RedditRss
